import Mathlib

/-!
Verification development for the a2a-tutorial workflow orchestration core.

The repository ships the planner agent (`agents/langgraph_planner_agent.py`),
the MCP server (`mcp/server.py`) and a test suite; the workflow graph
(`common/workflow.py`) and the orchestrator (`agents/orchestrator_agent.py`)
are exercised only through their tests, so those two modules are modelled
here from the specification's contracts (§3, §4.1, §4.3) and from the
behaviour their unit tests pin down.
-/

/-- Python's `str.strip()`: removes leading and trailing whitespace. -/
def strip (s : String) : String :=
  ⟨((s.data.dropWhile Char.isWhitespace).reverse.dropWhile
      Char.isWhitespace).reverse⟩

/-- Python's `str.upper()`: upper-cases every character. -/
def upper (s : String) : String :=
  ⟨s.data.map Char.toUpper⟩

/-- Python's `str.startswith(pre)`: whether `pre` is a prefix of `s`. -/
def startswith (s pre : String) : Bool :=
  pre.data.isPrefixOf s.data

namespace Workflow

/-- Modelled from the spec: node statuses `PENDING`, `RUNNING`, `COMPLETED`,
`INPUT_REQUIRED`, `ERROR` (§3, WorkflowNode) together with the graph-level
`READY` state (§3, WorkflowGraph); the test suite imports a single `Status`
enumeration from `a2a_mcp.common.workflow` covering both uses. -/
inductive Status where
  | READY
  | PENDING
  | RUNNING
  | COMPLETED
  | INPUT_REQUIRED
  | ERROR
deriving DecidableEq, Repr

/-- Modelled from the spec: a workflow node carries an immutable `id`, a
`task` instruction, a `node_key`/`node_label` worker classification, a
mutable merged `attributes` mapping, and a `status` (§3, WorkflowNode). -/
structure WorkflowNode where
  id : String
  task : String
  node_key : String
  node_label : String
  status : Status
  attributes : List (String × String)
deriving DecidableEq, Repr

/-- Modelled from the spec: the graph owns the node set (in insertion order)
and a set of directed edges `(parent_id, child_id)` in insertion order
(§3, WorkflowGraph). -/
structure WorkflowGraph where
  nodes : List WorkflowNode
  edges : List (String × String)
deriving DecidableEq, Repr

/-- Status of the node with the given id, `none` when absent. -/
def statusOf (g : WorkflowGraph) (id : String) : Option Status :=
  (g.nodes.find? fun n => n.id == id).map (·.status)

/-- Parent ids of a node: sources of the edges entering it, in edge-insertion
order. -/
def parents (g : WorkflowGraph) (id : String) : List String :=
  (g.edges.filter fun e => e.2 == id).map (·.1)

/-- Child ids reachable in one step from `id` along the edge list. -/
def children (edges : List (String × String)) (id : String) : List String :=
  (edges.filter fun e => e.1 == id).map (·.2)

/-- Removes from a list every element already seen in `seen` or earlier in
the list, keeping the first occurrence of each remaining element. -/
def dedupFirstAux (seen : List String) : List String → List String
  | [] => []
  | x :: xs =>
      if seen.contains x then dedupFirstAux seen xs
      else x :: dedupFirstAux (seen ++ [x]) xs

/-- Removes duplicates keeping the first occurrence of each element. -/
def dedupFirst (l : List String) : List String :=
  dedupFirstAux [] l

/-- Modelled from the spec: a node is ready when it is `PENDING` and every
parent is `COMPLETED`; nodes with no parents are immediately ready (§4.1,
`nextReadyNodes`). -/
def isReady (g : WorkflowGraph) (id : String) : Bool :=
  decide (statusOf g id = some Status.PENDING) &&
  (parents g id).all fun p => decide (statusOf g p = some Status.COMPLETED)

/-- Modelled from the spec: the deterministic traversal order used by
`nextReadyNodes` — edge-insertion order (each edge contributing its child),
then node-insertion order for the remaining nodes (§4.1). -/
def nodeOrder (g : WorkflowGraph) : List String :=
  dedupFirst ((g.edges.map (·.2)) ++ (g.nodes.map (·.id)))

/-- Modelled from the spec: `nextReadyNodes()` returns, in deterministic
order (edge-insertion order, then node-insertion order for ties), all
`PENDING` nodes whose every parent is `COMPLETED` (§4.1). -/
def nextReadyNodes (g : WorkflowGraph) : List String :=
  (nodeOrder g).filter (isReady g)

/-- Modelled from the spec: the overall run state derived from the node
statuses alone — `ERROR` if any node is `ERROR`; else `INPUT_REQUIRED` if
any node is `INPUT_REQUIRED`; else `COMPLETED` if every node is `COMPLETED`;
else `RUNNING` (§4.1). -/
def deriveState (statuses : List Status) : Status :=
  if statuses.any fun s => decide (s = Status.ERROR) then Status.ERROR
  else if statuses.any fun s => decide (s = Status.INPUT_REQUIRED) then
    Status.INPUT_REQUIRED
  else if statuses.all fun s => decide (s = Status.COMPLETED) then
    Status.COMPLETED
  else Status.RUNNING

/-- Overall graph state, a pure function of the node statuses (§4.1). -/
def graphState (g : WorkflowGraph) : Status :=
  deriveState (g.nodes.map (·.status))

/-- Modelled from the spec: graph API failures — `DuplicateNodeError`,
`UnknownNodeError`, `CycleError` (§4.1, §7). -/
inductive GraphError where
  | DuplicateNodeError
  | UnknownNodeError
  | CycleError
deriving DecidableEq, Repr

/-- Modelled from the spec: `addNode(node)` inserts a node and fails with
`DuplicateNodeError` if the id is already present (§4.1). -/
def add_node (g : WorkflowGraph) (n : WorkflowNode) :
    Except GraphError WorkflowGraph :=
  if g.nodes.any fun m => m.id == n.id then .error .DuplicateNodeError
  else .ok { g with nodes := g.nodes ++ [n] }

/-- Bounded breadth-first expansion of a frontier of node ids along the edge
list; `fuel` bounds the number of expansion rounds. -/
def reachAux (edges : List (String × String)) : Nat → List String → List String
  | 0, s => s
  | fuel + 1, s =>
      reachAux edges fuel (dedupFirst (s ++ s.flatMap (children edges)))

/-- Modelled from the spec: reachability of `dst` from `src` along directed
edges (reflexive, since a node always reaches itself); this is the cycle
check `addEdge` performs from child to parent before insertion (§4.1). -/
def reachable (edges : List (String × String)) (src dst : String) : Bool :=
  (reachAux edges edges.length [src]).contains dst

/-- Modelled from the spec: `addEdge(parentId, childId)` fails with
`UnknownNodeError` if either endpoint is absent, fails with `CycleError`
if the edge would create a cycle (checked via reachability from child to
parent before insertion), and otherwise appends the edge (§4.1). -/
def add_edge (g : WorkflowGraph) (parentId childId : String) :
    Except GraphError WorkflowGraph :=
  if ¬ g.nodes.any fun n => n.id == parentId then .error .UnknownNodeError
  else if ¬ g.nodes.any fun n => n.id == childId then .error .UnknownNodeError
  else if reachable g.edges childId parentId then .error .CycleError
  else .ok { g with edges := g.edges ++ [(parentId, childId)] }

/-- Example graph of the spec's §8 scenario: `A → B`, `A → C`; `A` completed,
`B` and `C` pending. -/
def gFanOut : WorkflowGraph :=
  { nodes :=
      [⟨"A", "plan the trip", "planner", "Planner", Status.COMPLETED, []⟩,
       ⟨"B", "book the flight", "flights", "Flights", Status.PENDING, []⟩,
       ⟨"C", "book the hotel", "hotels", "Hotels", Status.PENDING, []⟩],
    edges := [("A", "B"), ("A", "C")] }

/-- Example graph with one failed node. -/
def gOneError : WorkflowGraph :=
  { nodes :=
      [⟨"A", "plan the trip", "planner", "Planner", Status.COMPLETED, []⟩,
       ⟨"B", "book the flight", "flights", "Flights", Status.ERROR, []⟩],
    edges := [("A", "B")] }

/-- Example graph with an edge `A → B` already present. -/
def gChain : WorkflowGraph :=
  { nodes :=
      [⟨"A", "plan the trip", "planner", "Planner", Status.PENDING, []⟩,
       ⟨"B", "book the flight", "flights", "Flights", Status.PENDING, []⟩],
    edges := [("A", "B")] }

end Workflow

namespace Orchestrator

open Workflow

/-- Modelled from the spec: an artifact is an opaque structured record
optionally containing a recognized trip-context sub-object (here a key-value
mapping, the `trip_info` field) and an opaque payload (§6, worker dispatch;
§3, session state). -/
structure Artifact where
  name : String
  trip_info : Option (List (String × String))
  payload : String
deriving DecidableEq, Repr

/-- Caller-facing event shape emitted by `handle()` (§6):
`{response_type, is_task_complete, require_user_input, content}`. -/
structure Event where
  response_type : String
  is_task_complete : Bool
  require_user_input : Bool
  content : String
deriving DecidableEq, Repr

/-- Modelled from the spec: events the execution driver yields while walking
the graph — progress text, a completed node's task artifact, or a node's
request for more user input (§4.2). -/
inductive DriverEvent where
  | progress (nodeId : String) (text : String)
  | taskArtifact (nodeId : String) (artifact : Artifact)
  | inputRequired (nodeId : String) (question : String)
deriving DecidableEq, Repr

/-- Modelled from the spec: the session state owned by one coordinator —
the graph (absent until built), `results`, `travel_context`,
`query_history`, and the held `context_id` (§3; also pinned by
`test_init` in `test_orchestrator_agent.py`). -/
structure OrchestratorState where
  graph : Option WorkflowGraph
  results : List Artifact
  travel_context : List (String × String)
  query_history : List String
  context_id : Option String
deriving DecidableEq, Repr

/-- Initial coordinator state: no graph, empty collections, no context id. -/
def init_state : OrchestratorState :=
  { graph := none, results := [], travel_context := [],
    query_history := [], context_id := none }

/-- Looks a key up in a context mapping (first binding wins, as in a dict
with unique keys). -/
def ctxGet (ctx : List (String × String)) (k : String) : Option String :=
  (ctx.find? fun p => p.1 == k).map (·.2)

/-- Sets one key in a context mapping with dict-update semantics: the first
existing binding is replaced in place, a missing key is appended. -/
def ctxSet (ctx : List (String × String)) (k v : String) :
    List (String × String) :=
  match ctx with
  | [] => [(k, v)]
  | p :: rest => if p.1 == k then (k, v) :: rest else p :: ctxSet rest k v

/-- Modelled from the spec: merging a structured sub-object into the shared
context; later merges overwrite overlapping keys (§3, `travel_context`). -/
def mergeContext (ctx m : List (String × String)) :
    List (String × String) :=
  m.foldl (fun acc p => ctxSet acc p.1 p.2) ctx

/-- Value of the last binding of a key in a mapping (the binding that wins a
fold-left merge). -/
def lookupLast (m : List (String × String)) (k : String) : Option String :=
  (m.reverse.find? fun p => p.1 == k).map (·.2)

/-- Modelled from the spec: folding one task-artifact event into the session
— the raw artifact is appended to `results`, and a recognized trip-context
sub-object is merged into `travel_context` (§4.3 step 5). -/
def process_artifact (st : OrchestratorState) (a : Artifact) :
    OrchestratorState :=
  { st with
    results := st.results ++ [a],
    travel_context :=
      match a.trip_info with
      | some m => mergeContext st.travel_context m
      | none => st.travel_context }

/-- Modelled from the spec: `clearState()` resets the graph to absent and all
session collections to empty; idempotent (§4.3; also pinned by
`test_clear_state`). -/
def clear_state (st : OrchestratorState) : OrchestratorState :=
  { graph := none, results := [], travel_context := [],
    query_history := [], context_id := st.context_id }

/-- Modelled from the spec: a `contextId` differing from the currently held
one invalidates and clears all session state, and the coordinator adopts the
new id (§3, §4.3 step 2). -/
def adopt_context (st : OrchestratorState) (ctxId : String) :
    OrchestratorState :=
  if st.context_id = some ctxId then st
  else { clear_state st with context_id := some ctxId }

/-- Modelled from the spec: building a fresh workflow graph from the
planner's ordered task list, one node per task, sequential edges by default
(§4.3 step 4). -/
def build_graph (tasks : List String) : WorkflowGraph :=
  { nodes := tasks.enum.map fun p =>
      { id := toString p.1, task := p.2, node_key := "task",
        node_label := p.2, status := Status.PENDING, attributes := [] },
    edges := (tasks.enum.drop 1).map fun p =>
      (toString (p.1 - 1), toString p.1) }

/-- Modelled from the spec: how the coordinator re-emits a driver event as a
caller-facing event — progress and artifacts pass through with
`is_task_complete = false`, and an input-required event carries
`require_user_input = true` (§4.3 steps 6 and 7). -/
def emit_driver_event : DriverEvent → Event
  | .progress _ text =>
      { response_type := "text", is_task_complete := false,
        require_user_input := false, content := text }
  | .taskArtifact _ a =>
      { response_type := "data", is_task_complete := false,
        require_user_input := false, content := a.payload }
  | .inputRequired _ q =>
      { response_type := "text", is_task_complete := false,
        require_user_input := true, content := q }

/-- Folds one driver event into the session state: only task-artifact events
change the accumulated session state (§4.3 step 5). -/
def step (st : OrchestratorState) : DriverEvent → OrchestratorState
  | .taskArtifact _ a => process_artifact st a
  | .progress _ _ => st
  | .inputRequired _ _ => st

/-- Modelled from the spec: `handle()` failures; the empty-query rejection is
raised as `ValueError('Query cannot be empty')` in the tests (§4.3 step 1,
§7; `test_stream_empty_query`). -/
inductive HandleError where
  | EmptyQueryError
deriving DecidableEq, Repr

/-- Result of a successful `handle()` call: the updated session state and the
events emitted to the caller. -/
structure HandleOutcome where
  state : OrchestratorState
  events : List Event
deriving DecidableEq, Repr

/-- Modelled from the spec: the first two processing steps of a `handle()`
call — adopting the (possibly new) context id and appending the query to
`query_history` (§4.3 steps 2 and 3). -/
def after_query (st : OrchestratorState) (query ctxId : String) :
    OrchestratorState :=
  let st1 := adopt_context st ctxId
  { st1 with query_history := st1.query_history ++ [query] }

/-- Modelled from the spec: when no graph exists for this session, the
planner collaborator is invoked with the full query history and current
shared context, and a fresh graph is built from its task list (§4.3
step 4). -/
def ensure_graph (st : OrchestratorState)
    (plan : List String → List (String × String) → List String) :
    OrchestratorState :=
  if st.graph = none then
    { st with
      graph := some (build_graph (plan st.query_history st.travel_context)) }
  else st

/-- Modelled from the spec: `handle(query, contextId, taskId)` (§4.3) — the
missing `orchestrator_agent.stream` — as a pure function of the session
state, the collaborators and the driver run. The asynchronous driver of
§4.2 is abstracted by the finite list of events it yields this call
(`driverEvents`) and the graph state it terminates in (`finalGraphState`);
the planner collaborator by `plan`, the summary collaborator by
`summarize`. The first component of the result records which collaborators
were invoked, in order. Steps, in the spec's order: empty-query rejection;
context adoption; query-history append; graph construction from the
planner when no graph exists; driver-event folding and re-emission; the
single synthesized summary event replacing the raw completion event. -/
def handle (st : OrchestratorState) (query ctxId task_id : String)
    (plan : List String → List (String × String) → List String)
    (driverEvents : List DriverEvent) (finalGraphState : Status)
    (summarize : List Artifact → String) :
    List String × Except HandleError HandleOutcome :=
  if strip query = "" then ([], .error .EmptyQueryError)
  else
    let st2 := after_query st query ctxId
    let planTrace := if st2.graph = none then ["planner"] else []
    let st3 := ensure_graph st2 plan
    let st4 := driverEvents.foldl step st3
    let emitted := driverEvents.map emit_driver_event
    if finalGraphState = Status.COMPLETED then
      (planTrace ++ ["summary"],
       .ok { state := st4,
             events := emitted ++
               [{ response_type := "text", is_task_complete := true,
                  require_user_input := false,
                  content := summarize st4.results }] })
    else
      (planTrace, .ok { state := st4, events := emitted })

/-- Structured result of the Q&A text-generation collaborator (§6). -/
structure QAResult where
  can_answer : String
  answer : String
deriving DecidableEq, Repr

/-- Modelled from the spec and `test_answer_user_question_exception`:
`answerUserQuestion` submits the question to the text-generation
collaborator (abstracted by its outcome, `Except` error standing for a
raised exception) and on any collaborator failure locally returns the fixed
fallback `{can_answer: "no", answer: "Cannot answer based on provided
context"}` instead of propagating (§4.3, §7). -/
def answer_user_question (clientOutcome : Except String QAResult) : QAResult :=
  match clientOutcome with
  | .ok r => r
  | .error _ =>
      { can_answer := "no",
        answer := "Cannot answer based on provided context" }

/-- Session state at the end of a successful `handle()` call: the driver
events folded over the state produced by context adoption, query-history
append and graph construction. -/
def final_state (st : OrchestratorState) (query ctxId : String)
    (plan : List String → List (String × String) → List String)
    (dE : List DriverEvent) : OrchestratorState :=
  dE.foldl step (ensure_graph (after_query st query ctxId) plan)

/-- The single final event synthesized on graph completion (§4.3 step 6). -/
def summary_event (content : String) : Event :=
  { response_type := "text", is_task_complete := true,
    require_user_input := false, content := content }

end Orchestrator

namespace PlannerAgent

/-- Planner response status (`Status` in
`agents/langgraph_planner_agent.py`): a string-valued enumeration with
members `input_required`, `completed`, `error`; being a `str` enum, its
members compare equal to the corresponding string literals, which the
source relies on in `get_agent_response`. -/
inductive Status where
  | input_required
  | completed
  | error
deriving DecidableEq, Repr

/-- A task item of the planner's structured response (`Task` in
`agents/langgraph_planner_agent.py`): a title and a done flag defaulting to
false. -/
structure Task where
  title : String
  done : Bool := false
deriving DecidableEq, Repr

/-- The planner's structured response (`ResponseFormat` in
`agents/langgraph_planner_agent.py`): a status defaulting to
`input_required`, an optional clarification question, and an optional task
list. -/
structure ResponseFormat where
  status : Status := Status.input_required
  question : Option String := none
  content : Option (List Task) := none
deriving DecidableEq, Repr

/-- Content of the dict `get_agent_response` returns: the question text for
the `input_required` and `error` branches (possibly `None`, as `question`
is optional), the dumped task list for `completed` (`model_dump()` of the
list is represented by the list itself, the `Option` carried through), or
the fixed fallback message. -/
inductive Content where
  | question (q : Option String)
  | data (tasks : Option (List Task))
  | message (s : String)
deriving DecidableEq, Repr

/-- The dict returned by `get_agent_response`; the fallback dict carries no
`response_type` key, hence the `Option`. -/
structure AgentResponse where
  response_type : Option String
  is_task_complete : Bool
  require_user_input : Bool
  content : Content
deriving DecidableEq, Repr

/-- `LangGraphPlannerAgent.get_agent_response`
(`agents/langgraph_planner_agent.py`, lines 135-169), as a function of the
`structured_response` read from the graph state; `none` models both an
absent value and one that is not a `ResponseFormat` instance, either of
which falls through to the fixed fallback dict. -/
def get_agent_response (structured_response : Option ResponseFormat) :
    AgentResponse :=
  match structured_response with
  | some r =>
      match r.status with
      | Status.input_required =>
          { response_type := some "text", is_task_complete := false,
            require_user_input := true,
            content := Content.question r.question }
      | Status.error =>
          { response_type := some "text", is_task_complete := false,
            require_user_input := true,
            content := Content.question r.question }
      | Status.completed =>
          { response_type := some "data", is_task_complete := true,
            require_user_input := false,
            content := Content.data r.content }
  | none =>
      { response_type := none, is_task_complete := false,
        require_user_input := true,
        content := Content.message
          "We are unable to process your request at the moment. Please try again." }

end PlannerAgent

namespace MCPServer

/-- A row returned from the travel database: a `sqlite3.Row` converted to a
column-name/value dict (`mcp/server.py`, `query_travel_data`). -/
abbrev Row := List (String × String)

/-- Outcome of the `query_travel_data` tool body once the guard has passed:
either the query results, or the error payload the `except` branch returns
as a normal value. -/
inductive QueryOutcome where
  | results (rows : List Row)
  | errorPayload (message : String)
deriving DecidableEq, Repr

/-- `query_travel_data` of `mcp/server.py` (lines 202-239). The guard
`if not query or not query.strip().upper().startswith('SELECT')` raises
`ValueError(f'In correct query {query}')` — modelled as `Except.error` —
before any database work; only past the guard is the sqlite connection
opened, abstracted here by `db`, whose own failure (`Except.error`) the
source's `except` branch catches and returns as a normal error payload
(its further string-matching on the message is not modelled). -/
def query_travel_data (query : String)
    (db : String → Except String (List Row)) :
    Except String QueryOutcome :=
  if query == "" || !(startswith (upper (strip query)) "SELECT") then
    Except.error ("In correct query " ++ query)
  else
    match db query with
    | Except.ok rows => Except.ok (QueryOutcome.results rows)
    | Except.error e => Except.ok (QueryOutcome.errorPayload e)

end MCPServer

namespace Workflow

theorem mem_dedupFirstAux (a : String) :
    ∀ (l seen : List String), a ∈ dedupFirstAux seen l ↔ a ∈ l ∧ a ∉ seen := by
  intro l
  induction l with
  | nil => simp [dedupFirstAux]
  | cons x xs ih =>
      intro seen
      by_cases hx : seen.contains x
      · simp only [dedupFirstAux, hx, if_pos]
        rw [ih]
        constructor
        · exact fun h => ⟨List.mem_cons_of_mem x h.1, h.2⟩
        · rintro ⟨hmem, hs⟩
          rcases List.mem_cons.mp hmem with h | h
          · exact absurd (h ▸ List.mem_of_elem_eq_true hx) hs
          · exact ⟨h, hs⟩
      · simp only [dedupFirstAux, hx, if_neg, Bool.false_eq_true,
          not_false_iff, List.mem_cons]
        by_cases hax : a = x
        · subst hax
          simp only [true_or, true_and]
          constructor
          · intro _
            exact fun hs => hx (List.elem_eq_true_of_mem hs)
          · intro _
            trivial
        · simp only [hax, false_or]
          rw [ih]
          simp [hax]

theorem mem_dedupFirst (a : String) (l : List String) :
    a ∈ dedupFirst l ↔ a ∈ l := by
  rw [dedupFirst, mem_dedupFirstAux]
  simp

theorem statusOf_mem_ids {g : WorkflowGraph} {id : String} {s : Status}
    (h : statusOf g id = some s) : id ∈ g.nodes.map (·.id) := by
  rw [statusOf] at h
  rcases Option.map_eq_some'.mp h with ⟨n, hfind, _⟩
  have hmem := List.mem_of_find?_eq_some hfind
  have hpred := List.find?_some hfind
  simp only [beq_iff_eq] at hpred
  subst hpred
  exact List.mem_map_of_mem (·.id) hmem

theorem deriveState_of_error {sts : List Status}
    (h : Status.ERROR ∈ sts) : deriveState sts = Status.ERROR := by
  rw [deriveState, if_pos]
  simp only [List.any_eq_true, decide_eq_true_eq]
  exact ⟨_, h, rfl⟩

theorem deriveState_of_input_required {sts : List Status}
    (he : Status.ERROR ∉ sts) (h : Status.INPUT_REQUIRED ∈ sts) :
    deriveState sts = Status.INPUT_REQUIRED := by
  rw [deriveState, if_neg, if_pos]
  · simp only [List.any_eq_true, decide_eq_true_eq]
    exact ⟨_, h, rfl⟩
  · simp only [List.any_eq_true, decide_eq_true_eq, not_exists, not_and]
    intro s hs hserr
    exact he (hserr ▸ hs)

theorem deriveState_of_all_completed {sts : List Status}
    (h : ∀ s ∈ sts, s = Status.COMPLETED) :
    deriveState sts = Status.COMPLETED := by
  have hno : ∀ t, t ∈ sts → t ≠ Status.ERROR ∧ t ≠ Status.INPUT_REQUIRED := by
    intro t ht
    rw [h t ht]
    exact ⟨by simp, by simp⟩
  rw [deriveState, if_neg, if_neg, if_pos]
  · simp only [List.all_eq_true, decide_eq_true_eq]
    exact h
  · simp only [List.any_eq_true, decide_eq_true_eq, not_exists, not_and]
    exact fun s hs => (hno s hs).2
  · simp only [List.any_eq_true, decide_eq_true_eq, not_exists, not_and]
    exact fun s hs => (hno s hs).1

theorem deriveState_of_running {sts : List Status}
    (he : Status.ERROR ∉ sts) (hi : Status.INPUT_REQUIRED ∉ sts)
    (hc : ∃ s ∈ sts, s ≠ Status.COMPLETED) :
    deriveState sts = Status.RUNNING := by
  rw [deriveState, if_neg, if_neg, if_neg]
  · simp only [List.all_eq_true, decide_eq_true_eq, not_forall]
    rcases hc with ⟨s, hs, hne⟩
    exact ⟨s, hs, hne⟩
  · simp only [List.any_eq_true, decide_eq_true_eq, not_exists, not_and]
    exact fun s hs hseq => hi (hseq ▸ hs)
  · simp only [List.any_eq_true, decide_eq_true_eq, not_exists, not_and]
    exact fun s hs hseq => he (hseq ▸ hs)

/-- C1: for every workflow graph, `nextReadyNodes()` returns only `PENDING`
nodes all of whose parents have status `COMPLETED` (nodes with no parents
are immediately ready), returns every such node present in the graph, and
returns them in deterministic order: a sublist of the canonical order given
by edge-insertion order, then node-insertion order for ties. -/
theorem c1_next_ready_nodes (g : WorkflowGraph) :
    (∀ id ∈ nextReadyNodes g,
        statusOf g id = some Status.PENDING ∧
        ∀ p ∈ parents g id, statusOf g p = some Status.COMPLETED) ∧
    (∀ id, statusOf g id = some Status.PENDING →
        (∀ p ∈ parents g id, statusOf g p = some Status.COMPLETED) →
        id ∈ nextReadyNodes g) ∧
    (nextReadyNodes g).Sublist (nodeOrder g) := by
  refine ⟨?_, ?_, List.filter_sublist _⟩
  · intro id hid
    rcases List.mem_filter.mp hid with ⟨_, hready⟩
    rw [isReady, Bool.and_eq_true] at hready
    rcases hready with ⟨h1, h2⟩
    rw [decide_eq_true_eq] at h1
    refine ⟨h1, ?_⟩
    intro p hp
    rw [List.all_eq_true] at h2
    have := h2 p hp
    rwa [decide_eq_true_eq] at this
  · intro id h1 h2
    apply List.mem_filter.mpr
    constructor
    · rw [nodeOrder, mem_dedupFirst]
      exact List.mem_append_right _ (statusOf_mem_ids h1)
    · rw [isReady, Bool.and_eq_true]
      refine ⟨decide_eq_true h1, ?_⟩
      rw [List.all_eq_true]
      exact fun p hp => decide_eq_true (h2 p hp)

/-- C2: the graph's overall state is a pure function of the node statuses:
`ERROR` if any node is `ERROR`; else `INPUT_REQUIRED` if any node is
`INPUT_REQUIRED`; else `COMPLETED` if every node is `COMPLETED`; else
`RUNNING` — for every combination of node statuses, hence for every
reachable one. -/
theorem c2_graph_state_derived (g : WorkflowGraph) :
    (∀ g' : WorkflowGraph, g.nodes.map (·.status) = g'.nodes.map (·.status) →
        graphState g = graphState g') ∧
    ((∃ n ∈ g.nodes, n.status = Status.ERROR) →
        graphState g = Status.ERROR) ∧
    ((∀ n ∈ g.nodes, n.status ≠ Status.ERROR) →
      (∃ n ∈ g.nodes, n.status = Status.INPUT_REQUIRED) →
        graphState g = Status.INPUT_REQUIRED) ∧
    ((∀ n ∈ g.nodes, n.status = Status.COMPLETED) →
        graphState g = Status.COMPLETED) ∧
    ((∀ n ∈ g.nodes, n.status ≠ Status.ERROR) →
      (∀ n ∈ g.nodes, n.status ≠ Status.INPUT_REQUIRED) →
      (∃ n ∈ g.nodes, n.status ≠ Status.COMPLETED) →
        graphState g = Status.RUNNING) := by
  refine ⟨?_, ?_, ?_, ?_, ?_⟩
  · intro g' hmap
    rw [graphState, graphState, hmap]
  · rintro ⟨n, hn, hs⟩
    exact deriveState_of_error (hs ▸ List.mem_map_of_mem (·.status) hn)
  · rintro hne ⟨n, hn, hs⟩
    apply deriveState_of_input_required
    · intro hmem
      rcases List.mem_map.mp hmem with ⟨m, hm, hms⟩
      exact hne m hm hms
    · exact hs ▸ List.mem_map_of_mem (·.status) hn
  · intro hall
    apply deriveState_of_all_completed
    intro s hs
    rcases List.mem_map.mp hs with ⟨m, hm, hms⟩
    exact hms ▸ hall m hm
  · intro hne hni ⟨n, hn, hns⟩
    apply deriveState_of_running
    · intro hmem
      rcases List.mem_map.mp hmem with ⟨m, hm, hms⟩
      exact hne m hm hms
    · intro hmem
      rcases List.mem_map.mp hmem with ⟨m, hm, hms⟩
      exact hni m hm hms
    · exact ⟨n.status, List.mem_map_of_mem (·.status) hn, hns⟩

/-- C6: `addEdge(parentId, childId)` fails with `CycleError` whenever the new
edge would create a cycle (decided by reachability from child to parent
before insertion), and on that failure no modified graph is produced: the
node and edge sets are unchanged. -/
theorem c6_add_edge_cycle (g : WorkflowGraph) (parentId childId : String)
    (hp : (g.nodes.any fun n => n.id == parentId) = true)
    (hc : (g.nodes.any fun n => n.id == childId) = true)
    (hcy : reachable g.edges childId parentId = true) :
    add_edge g parentId childId = .error GraphError.CycleError ∧
    ∀ g' : WorkflowGraph, add_edge g parentId childId ≠ .ok g' := by
  have heq : add_edge g parentId childId = .error GraphError.CycleError := by
    rw [add_edge, if_neg, if_neg, if_pos hcy]
    · simp [hc]
    · simp [hp]
  exact ⟨heq, fun g' hok => by rw [heq] at hok; exact Except.noConfusion hok⟩

/-- Witness for C1: in the fan-out graph, node `B` (pending, its only parent
`A` completed) is returned by `nextReadyNodes`. -/
theorem c1_next_ready_nodes_witness : "B" ∈ nextReadyNodes gFanOut :=
  (c1_next_ready_nodes gFanOut).2.1 "B" (by decide) (by decide)

/-- Witness for C2: a graph containing an `ERROR` node derives overall state
`ERROR`. -/
theorem c2_graph_state_derived_witness : graphState gOneError = Status.ERROR :=
  (c2_graph_state_derived gOneError).2.1
    ⟨⟨"B", "book the flight", "flights", "Flights", Status.ERROR, []⟩,
     by decide, rfl⟩

/-- Witness for C6: adding the back edge `B → A` to a graph already holding
`A → B` fails with `CycleError`. -/
theorem c6_add_edge_cycle_witness :
    add_edge gChain "B" "A" = .error GraphError.CycleError :=
  (c6_add_edge_cycle gChain "B" "A" (by decide) (by decide) (by decide)).1

end Workflow

namespace Orchestrator

open Workflow

theorem find?_append (l₁ l₂ : List (String × String))
    (p : String × String → Bool) :
    (l₁ ++ l₂).find? p =
      match l₁.find? p with
      | some x => some x
      | none => l₂.find? p := by
  induction l₁ with
  | nil => simp
  | cons a l ih =>
      by_cases ha : p a
      · simp [List.find?_cons_of_pos _ ha]
      · simp only [List.cons_append, List.find?_cons_of_neg _ ha, ih]

theorem ctxGet_ctxSet_same (ctx : List (String × String)) (k v : String) :
    ctxGet (ctxSet ctx k v) k = some v := by
  induction ctx with
  | nil => simp [ctxSet, ctxGet, List.find?]
  | cons p rest ih =>
      by_cases h : p.1 = k
      · simp [ctxSet, h, ctxGet, List.find?]
      · rw [ctxSet]
        simp only [h, beq_iff_eq, if_neg, not_false_iff]
        rw [ctxGet, List.find?_cons_of_neg]
        · exact ih
        · simp [h]

theorem ctxGet_ctxSet_other (ctx : List (String × String)) (k v k' : String)
    (h : k' ≠ k) : ctxGet (ctxSet ctx k v) k' = ctxGet ctx k' := by
  induction ctx with
  | nil =>
      rw [ctxSet, ctxGet, List.find?_cons_of_neg, List.find?_nil]
      · rfl
      · simp [Ne.symm h]
  | cons p rest ih =>
      by_cases hp : p.1 = k
      · rw [ctxSet]
        simp only [hp, beq_self_eq_true, if_pos]
        rw [ctxGet, ctxGet, List.find?_cons_of_neg, List.find?_cons_of_neg]
        · simp [hp, Ne.symm h]
        · simp [Ne.symm h]
      · rw [ctxSet]
        simp only [hp, beq_iff_eq, if_neg, not_false_iff]
        by_cases hpk : p.1 = k'
        · rw [ctxGet, ctxGet, List.find?_cons_of_pos, List.find?_cons_of_pos]
          · simp [hpk]
          · simp [hpk]
        · rw [ctxGet, ctxGet, List.find?_cons_of_neg, List.find?_cons_of_neg]
          · exact ih
          · simp [hpk]
          · simp [hpk]

theorem ctxGet_mergeContext (ctx m : List (String × String)) (k : String) :
    ctxGet (mergeContext ctx m) k =
      match lookupLast m k with
      | some v => some v
      | none => ctxGet ctx k := by
  induction m generalizing ctx with
  | nil => simp [mergeContext, lookupLast]
  | cons p rest ih =>
      rw [mergeContext, List.foldl_cons]
      have step1 : rest.foldl (fun acc q => ctxSet acc q.1 q.2)
          (ctxSet ctx p.1 p.2) = mergeContext (ctxSet ctx p.1 p.2) rest := rfl
      rw [step1, ih]
      simp only [lookupLast, List.reverse_cons, find?_append]
      cases hfind : rest.reverse.find? fun q => q.1 == k with
      | some q => simp [hfind]
      | none =>
          simp only [hfind, Option.map_none']
          by_cases hk : p.1 = k
          · subst hk
            simp [List.find?, ctxGet_ctxSet_same]
          · rw [List.find?_cons_of_neg, List.find?_nil]
            · simp [ctxGet_ctxSet_other ctx p.1 p.2 k (Ne.symm hk)]
            · simp [hk]

theorem foldl_step_query_history (dE : List DriverEvent) :
    ∀ st : OrchestratorState,
      (dE.foldl step st).query_history = st.query_history := by
  induction dE with
  | nil => intro st; rfl
  | cons e rest ih =>
      intro st
      rw [List.foldl_cons, ih]
      cases e <;> rfl

theorem foldl_step_context_id (dE : List DriverEvent) :
    ∀ st : OrchestratorState,
      (dE.foldl step st).context_id = st.context_id := by
  induction dE with
  | nil => intro st; rfl
  | cons e rest ih =>
      intro st
      rw [List.foldl_cons, ih]
      cases e <;> rfl

theorem emit_driver_event_not_complete (e : DriverEvent) :
    (emit_driver_event e).is_task_complete = false := by
  cases e <;> rfl

theorem filter_map_emit_complete (dE : List DriverEvent) :
    (dE.map emit_driver_event).filter (·.is_task_complete) = [] := by
  induction dE with
  | nil => rfl
  | cons e rest ih =>
      rw [List.map_cons, List.filter_cons_of_neg, ih]
      simp [emit_driver_event_not_complete]

theorem ensure_graph_query_history (st : OrchestratorState)
    (plan : List String → List (String × String) → List String) :
    (ensure_graph st plan).query_history = st.query_history := by
  rw [ensure_graph]
  split <;> rfl

theorem ensure_graph_context_id (st : OrchestratorState)
    (plan : List String → List (String × String) → List String) :
    (ensure_graph st plan).context_id = st.context_id := by
  rw [ensure_graph]
  split <;> rfl

theorem handle_ok_state (st : OrchestratorState)
    (query ctxId task_id : String)
    (plan : List String → List (String × String) → List String)
    (dE : List DriverEvent) (fS : Status)
    (summarize : List Artifact → String) (out : HandleOutcome)
    (hout : (handle st query ctxId task_id plan dE fS summarize).2 =
      .ok out) :
    out.state = dE.foldl step (ensure_graph (after_query st query ctxId)
      plan) := by
  rw [handle] at hout
  split at hout
  · exact absurd hout (by simp)
  · split at hout <;>
      (simp only [Except.ok.injEq] at hout; rw [← hout])

/-- C4: `handle()` with an empty or whitespace query fails with the
empty-query error before any collaborator (planner, worker, text
generation) is invoked — the invocation trace is empty and the outcome is
the error, whatever the collaborators and the driver would have done — and
before any graph work. -/
theorem c4_empty_query_rejected (st : OrchestratorState)
    (query ctxId task_id : String)
    (plan : List String → List (String × String) → List String)
    (dE : List DriverEvent) (fS : Status)
    (summarize : List Artifact → String)
    (hq : strip query = "") :
    handle st query ctxId task_id plan dE fS summarize =
      ([], .error HandleError.EmptyQueryError) := by
  rw [handle, if_pos hq]

/-- Witness for C4: the concrete call of `test_stream_empty_query` — an
empty query with fresh state and arbitrary concrete collaborators — fails
with the empty-query error and an empty invocation trace. -/
theorem c4_empty_query_rejected_witness :
    handle init_state "" "context1" "task1" (fun _ _ => []) []
        Status.RUNNING (fun _ => "") =
      ([], .error HandleError.EmptyQueryError) :=
  c4_empty_query_rejected init_state "" "context1" "task1" (fun _ _ => [])
    [] Status.RUNNING (fun _ => "") (by decide)

/-- C3: whenever the graph reaches `COMPLETED` during a `handle()` call, the
coordinator emits exactly one final event — the last one — whose content
equals the summary collaborator's output over the accumulated results, with
`is_task_complete = true` and `require_user_input = false`, instead of the
raw completion event. -/
theorem c3_completed_single_summary (st : OrchestratorState)
    (query ctxId task_id : String)
    (plan : List String → List (String × String) → List String)
    (dE : List DriverEvent) (summarize : List Artifact → String)
    (hq : ¬ strip query = "") :
    (handle st query ctxId task_id plan dE Status.COMPLETED summarize).2 =
      .ok { state := final_state st query ctxId plan dE,
            events := dE.map emit_driver_event ++
              [summary_event (summarize
                (final_state st query ctxId plan dE).results)] } ∧
    ∀ out : HandleOutcome,
      (handle st query ctxId task_id plan dE Status.COMPLETED
          summarize).2 = .ok out →
        (out.events.filter (·.is_task_complete)).length = 1 ∧
        out.events.getLast? =
          some (summary_event (summarize out.state.results)) := by
  have heq : (handle st query ctxId task_id plan dE Status.COMPLETED
      summarize).2 =
      .ok { state := final_state st query ctxId plan dE,
            events := dE.map emit_driver_event ++
              [summary_event (summarize
                (final_state st query ctxId plan dE).results)] } := by
    rw [handle, if_neg hq]
    simp [final_state, summary_event]
  refine ⟨heq, ?_⟩
  intro out hout
  rw [heq] at hout
  simp only [Except.ok.injEq] at hout
  rw [← hout]
  constructor
  · rw [List.filter_append, filter_map_emit_complete]
    rfl
  · rw [List.getLast?_concat]

/-- Witness for C3: a concrete completed run — fresh state, nonempty query,
no driver events, summary collaborator returning `"Summary"` — yields
exactly the single summary event. -/
theorem c3_completed_single_summary_witness :
    (handle init_state "plan a trip" "context1" "task1"
        (fun _ _ => ["book the flight"]) [] Status.COMPLETED
        (fun _ => "Summary")).2 =
      .ok { state :=
              { graph := some (build_graph ["book the flight"]),
                results := [], travel_context := [],
                query_history := ["plan a trip"],
                context_id := some "context1" },
            events := [{ response_type := "text", is_task_complete := true,
                         require_user_input := false,
                         content := "Summary" }] } :=
  ((c3_completed_single_summary init_state "plan a trip" "context1" "task1"
      (fun _ _ => ["book the flight"]) [] (fun _ => "Summary")
      (by decide)).1).trans (by rfl)

/-- C5: a `handle()` call with a `contextId` different from the currently
held one resets `results`, `travel_context` and `query_history` to empty
and clears the graph before the new query is processed, adopts the new
context id, and behaves exactly as the same call on the freshly cleared
state; on success the resulting state holds the new context id and a query
history containing only the new query. -/
theorem c5_context_switch_clears (st : OrchestratorState)
    (query ctxId task_id : String)
    (plan : List String → List (String × String) → List String)
    (dE : List DriverEvent) (fS : Status)
    (summarize : List Artifact → String)
    (hctx : st.context_id ≠ some ctxId) :
    adopt_context st ctxId =
      { graph := none, results := [], travel_context := [],
        query_history := [], context_id := some ctxId } ∧
    handle st query ctxId task_id plan dE fS summarize =
      handle
        { graph := none, results := [], travel_context := [],
          query_history := [], context_id := some ctxId }
        query ctxId task_id plan dE fS summarize ∧
    ∀ out : HandleOutcome,
      (handle st query ctxId task_id plan dE fS summarize).2 = .ok out →
        out.state.context_id = some ctxId ∧
        out.state.query_history = [query] := by
  have hadopt : adopt_context st ctxId =
      { graph := none, results := [], travel_context := [],
        query_history := [], context_id := some ctxId } := by
    rw [adopt_context, if_neg hctx]
    rfl
  have hadopt2 : adopt_context
      { graph := none, results := [], travel_context := [],
        query_history := [], context_id := some ctxId } ctxId =
      { graph := none, results := [], travel_context := [],
        query_history := [], context_id := some ctxId } := by
    rw [adopt_context, if_pos rfl]
  have hafter : after_query st query ctxId =
      after_query
        { graph := none, results := [], travel_context := [],
          query_history := [], context_id := some ctxId } query ctxId := by
    simp only [after_query, hadopt, hadopt2]
  refine ⟨hadopt, ?_, ?_⟩
  · rw [handle, handle, hafter]
  · intro out hout
    rw [handle_ok_state st query ctxId task_id plan dE fS summarize out
      hout]
    constructor
    · rw [foldl_step_context_id, ensure_graph_context_id, after_query,
        hadopt]
    · rw [foldl_step_query_history, ensure_graph_query_history,
        after_query, hadopt]
      rfl

/-- Witness for C5: the concrete scenario of
`test_stream_new_context_clears_state` — held context `old_context`, call
with `new_context` — adopts the new id with all collections cleared. -/
theorem c5_context_switch_clears_witness :
    adopt_context
      { graph := some gFanOut,
        results := [⟨"old", none, "r"⟩], travel_context := [("k", "v")],
        query_history := ["old query"], context_id := some "old_context" }
      "new_context" =
      { graph := none, results := [], travel_context := [],
        query_history := [], context_id := some "new_context" } :=
  (c5_context_switch_clears
    { graph := some gFanOut,
      results := [⟨"old", none, "r"⟩], travel_context := [("k", "v")],
      query_history := ["old query"], context_id := some "old_context" }
    "test query" "new_context" "task1" (fun _ _ => []) [] Status.RUNNING
    (fun _ => "") (by decide)).1

/-- C7: a task-artifact event whose artifact carries a recognized
trip-context sub-object is folded by appending the raw artifact to
`results` and merging the sub-object's keys into `travel_context`, the
merge overwriting overlapping keys of any prior `travel_context`
contents. -/
theorem c7_artifact_merged (st : OrchestratorState) (a : Artifact)
    (m : List (String × String)) (h : a.trip_info = some m) :
    (∀ nodeId : String,
        step st (DriverEvent.taskArtifact nodeId a) = process_artifact st a) ∧
    (process_artifact st a).results = st.results ++ [a] ∧
    ∀ k : String, ctxGet (process_artifact st a).travel_context k =
      match lookupLast m k with
      | some v => some v
      | none => ctxGet st.travel_context k := by
  refine ⟨fun _ => rfl, rfl, ?_⟩
  intro k
  simp only [process_artifact, h]
  exact ctxGet_mergeContext st.travel_context m k

/-- Witness for C7: merging the artifact
`{trip_info: {destination: "Paris"}}` of
`test_stream_workflow_artifact_processing` into a prior context holding
`destination: "London"` overwrites the key with `"Paris"`. -/
theorem c7_artifact_merged_witness :
    ctxGet
      (process_artifact
        { init_state with
          travel_context := [("destination", "London"), ("budget", "low")] }
        ⟨"PlannerAgent-result", some [("destination", "Paris")], "data"⟩).travel_context
      "destination" = some "Paris" :=
  ((c7_artifact_merged
    { init_state with
      travel_context := [("destination", "London"), ("budget", "low")] }
    ⟨"PlannerAgent-result", some [("destination", "Paris")], "data"⟩
    [("destination", "Paris")] rfl).2.2 "destination").trans (by decide)

/-- C8: `answerUserQuestion` returns exactly the structured fallback
`{can_answer: "no", answer: "Cannot answer based on provided context"}`
whenever the text-generation collaborator raises, for every question and
error, and passes the collaborator's structured result through on
success. -/
theorem c8_answer_fallback (errMsg : String) (r : QAResult) :
    answer_user_question (.error errMsg) =
      { can_answer := "no",
        answer := "Cannot answer based on provided context" } ∧
    answer_user_question (.ok r) = r :=
  ⟨rfl, rfl⟩

end Orchestrator

namespace PlannerAgent

/-- C9: a structured planner response with status `error` is reported
exactly like one with status `input_required` — the returned event has
`is_task_complete = False`, `require_user_input = True`, response type
`text`, and content equal to the response's `question` field; no distinct
error event shape exists. -/
theorem c9_error_reported_as_input_required (r : ResponseFormat)
    (h : r.status = Status.error) :
    get_agent_response (some r) =
      { response_type := some "text", is_task_complete := false,
        require_user_input := true,
        content := Content.question r.question } ∧
    get_agent_response (some r) =
      get_agent_response (some { r with status := Status.input_required }) := by
  rcases r with ⟨s, q, c⟩
  obtain rfl : s = Status.error := h
  exact ⟨rfl, rfl⟩

/-- Witness for C9: a concrete errored planner response is reported as a
text event carrying its question, requiring user input. -/
theorem c9_error_reported_as_input_required_witness :
    get_agent_response
        (some { status := Status.error,
                question := some "Which city are you flying from?",
                content := none }) =
      { response_type := some "text", is_task_complete := false,
        require_user_input := true,
        content := Content.question
          (some "Which city are you flying from?") } :=
  (c9_error_reported_as_input_required
    { status := Status.error,
      question := some "Which city are you flying from?",
      content := none } rfl).1

end PlannerAgent

namespace MCPServer

/-- C10: `query_travel_data` raises `ValueError` for every query that is
empty or whose stripped, upper-cased form does not start with `SELECT`,
whatever the database would have returned (hence before any database
connection is opened); and every accepted query begins, case-insensitively
and modulo surrounding whitespace, with `SELECT`. -/
theorem c10_query_travel_data_guard (query : String)
    (db : String → Except String (List Row)) :
    ((query = "" ∨ startswith (upper (strip query)) "SELECT" = false) →
      query_travel_data query db =
        Except.error ("In correct query " ++ query)) ∧
    (∀ out : QueryOutcome, query_travel_data query db = Except.ok out →
      startswith (upper (strip query)) "SELECT" = true) := by
  constructor
  · intro h
    rw [query_travel_data, if_pos]
    rcases h with h | h
    · simp [h]
    · simp [h]
  · intro out hout
    by_cases hsel : startswith (upper (strip query)) "SELECT" = true
    · exact hsel
    · exfalso
      rw [query_travel_data, if_pos] at hout
      · exact Except.noConfusion hout
      · simp [Bool.not_eq_true] at hsel
        simp [hsel]

/-- Witness for C10: the non-SELECT query `"drop table"` is rejected with
the `ValueError` message, even against a database that would have answered
successfully. -/
theorem c10_query_travel_data_guard_witness :
    query_travel_data "drop table" (fun _ => Except.ok []) =
      Except.error "In correct query drop table" :=
  (c10_query_travel_data_guard "drop table" (fun _ => Except.ok [])).1
    (Or.inr (by decide))

end MCPServer
